import Mathlib

/-!
Shallow embedding of the Ghostfolio API fragments:
`ImportService` (apps/api/src/app/import/import.service.ts) and
`InfoService` (apps/api/src/app/info/info.service.ts).

External collaborators (Prisma order store, data-provider lookup, Redis
cache, configuration reader, JSON codec, JWT signer, HTTP fetches) are
modelled as explicit parameters; side effects are made visible as an
explicit effect trace so that ordering claims ("no write before
validation completes", "no recomputation on a cache hit") are statable.
Timestamps are modelled as milliseconds since epoch (`Nat`); `isSameDay`
from date-fns becomes equality of the day-truncation. `parseISO` is the
identity in this model because dates are already numeric.
-/

namespace Ghostfolio

/-- Milliseconds per calendar day, used for the day-level truncation that
models date-fns `isSameDay`. -/
def msPerDay : Nat := 86400000

/-- Day-truncation of a millisecond timestamp. -/
def dayOf (d : Nat) : Nat := d / msPerDay

/-- Model of date-fns `isSameDay`: the two timestamps fall on the same
calendar day. -/
def isSameDay (a b : Nat) : Bool := dayOf a == dayOf b

/-- A candidate order of the import batch (`Partial<Order>` in the source;
the fields read by `ImportService` are modelled as present). -/
structure Candidate where
  accountId : String
  currency : String
  dataSource : String
  date : Nat
  fee : Int
  quantity : Int
  symbol : String
  type : String
  unitPrice : Int
deriving DecidableEq, Repr

/-- A persisted order record (Prisma `Order` restricted to the fields
read and written by the import service). -/
structure PersistedOrder where
  accountId : String
  currency : String
  dataSource : String
  date : Nat
  fee : Int
  quantity : Int
  symbol : String
  type : String
  unitPrice : Int
  userId : String
deriving DecidableEq, Repr

/-- The order store: the list of all persisted order records. -/
abbrev OrderDb := List PersistedOrder

/-- Model of `orderService.orders({ where: { userId } })`: the persisted
orders of one user.  The source also sorts by date descending; the sort
order is irrelevant here because the validation loop only tests whether a
matching order exists. -/
def ordersOf (db : OrderDb) (userId : String) : List PersistedOrder :=
  db.filter (fun o => o.userId == userId)

/-- The body of the `existingOrders.find` predicate in `validateOrders`:
the existing order `o` matches the candidate `c` on the dedup tuple
(currency, dataSource, day of date, fee, quantity, symbol, type,
unitPrice). -/
def isDupOf (o : PersistedOrder) (c : Candidate) : Bool :=
  o.currency == c.currency &&
  o.dataSource == c.dataSource &&
  isSameDay o.date c.date &&
  o.fee == c.fee &&
  o.quantity == c.quantity &&
  o.symbol == c.symbol &&
  o.type == c.type &&
  o.unitPrice == c.unitPrice

/-- Two persisted orders share the dedup tuple. -/
def sameDedupTuple (a b : PersistedOrder) : Bool :=
  a.currency == b.currency &&
  a.dataSource == b.dataSource &&
  isSameDay a.date b.date &&
  a.fee == b.fee &&
  a.quantity == b.quantity &&
  a.symbol == b.symbol &&
  a.type == b.type &&
  a.unitPrice == b.unitPrice

/-- Two candidates share the dedup tuple. -/
def candidateDedupEq (a b : Candidate) : Bool :=
  a.currency == b.currency &&
  a.dataSource == b.dataSource &&
  isSameDay a.date b.date &&
  a.fee == b.fee &&
  a.quantity == b.quantity &&
  a.symbol == b.symbol &&
  a.type == b.type &&
  a.unitPrice == b.unitPrice

/-- The data-provider lookup (`dataProviderService.get`), as the predicate
"the provider has a record for this (dataSource, symbol) pair"; an absent
entry in the returned mapping signals an invalid symbol. -/
abbrev DataProvider := String → String → Bool

/-- The error taxonomy of `validateOrders` (section 7 of the design):
the source throws `Error` values with these three message shapes. -/
inductive ImportError where
  | batchTooLarge
  | duplicateOrder (index : Nat)
  | invalidSymbol (index : Nat) (symbol : String) (dataSource : String)
deriving DecidableEq, Repr

/-- Observable side effects of the import pipeline, in execution order. -/
inductive Effect where
  | readOrders (userId : String)
  | lookup (dataSource symbol : String)
  | create (record : PersistedOrder)
deriving DecidableEq, Repr

namespace ImportService

/-- `ImportService.MAX_ORDERS_TO_IMPORT`. -/
def MAX_ORDERS_TO_IMPORT : Nat := 20

end ImportService

/-- The per-candidate validation loop of `validateOrders`, carrying the
running index.  For each candidate, first the duplicate check against the
user's existing orders (pure: the read already happened), then one
data-provider lookup (an effect that occurs even when the symbol turns
out invalid, since the query is made before the test). -/
def validateOrdersLoop (provider : DataProvider)
    (existingOrders : List PersistedOrder) :
    Nat → List Candidate → Except ImportError Unit × List Effect
  | _, [] => (Except.ok (), [])
  | index, c :: rest =>
    if existingOrders.any (fun o => isDupOf o c) then
      (Except.error (ImportError.duplicateOrder index), [])
    else if provider c.dataSource c.symbol then
      let r := validateOrdersLoop provider existingOrders (index + 1) rest
      (r.1, Effect.lookup c.dataSource c.symbol :: r.2)
    else
      (Except.error (ImportError.invalidSymbol index c.symbol c.dataSource),
        [Effect.lookup c.dataSource c.symbol])

/-- `ImportService.validateOrders`: the size check precedes the single
read of the user's existing orders, which precedes the per-candidate
loop.  Returns the validation outcome together with the effect trace. -/
def validateOrders (provider : DataProvider) (db : OrderDb)
    (orders : List Candidate) (userId : String) :
    Except ImportError Unit × List Effect :=
  if ImportService.MAX_ORDERS_TO_IMPORT < orders.length then
    (Except.error ImportError.batchTooLarge, [])
  else
    let r := validateOrdersLoop provider (ordersOf db userId) 0 orders
    (r.1, Effect.readOrders userId :: r.2)

/-- The record built by `orderService.createOrder` for one candidate:
the candidate's fields, linked to the candidate's `accountId` and to the
given `userId` (`parseISO` is the identity on the numeric date model). -/
def createOrderRecord (userId : String) (c : Candidate) : PersistedOrder :=
  { accountId := c.accountId
    currency := c.currency
    dataSource := c.dataSource
    date := c.date
    fee := c.fee
    quantity := c.quantity
    symbol := c.symbol
    type := c.type
    unitPrice := c.unitPrice
    userId := userId }

/-- `ImportService.import`: validate the whole batch, then (only on
success) create one order record per candidate, iterating the batch in
input order.  Returns the resulting order store (unchanged on error) and
the full effect trace. -/
def importOrders (provider : DataProvider) (db : OrderDb)
    (orders : List Candidate) (userId : String) :
    Except ImportError OrderDb × List Effect :=
  match validateOrders provider db orders userId with
  | (Except.error e, effs) => (Except.error e, effs)
  | (Except.ok _, effs) =>
    let records := orders.map (createOrderRecord userId)
    (Except.ok (db ++ records), effs ++ records.map Effect.create)

/-- The data-model invariant of section 3: within one user's order set, no
two persisted orders share the dedup tuple. -/
def DedupInvariant (db : OrderDb) : Prop :=
  ∀ userId : String,
    (ordersOf db userId).Pairwise (fun a b => sameDedupTuple a b = false)

/-! ### Info service -/

/-- The `Statistics` interface: three database counters, one database
count of new users, and two GitHub counters that may be missing
(`undefined` in the source) when the corresponding fetch failed. -/
structure Statistics where
  activeUsers1d : Nat
  activeUsers7d : Nat
  activeUsers30d : Nat
  gitHubContributors : Option Nat
  gitHubStargazers : Option Nat
  newUsers30d : Nat
deriving DecidableEq, Repr

/-- The leaf collaborators of the statistics computation: the Prisma
`user.count` queries (as functions of the day window) and the outcomes of
the two outbound GitHub HTTP fetches (which either return a number or
fail with an error). -/
structure StatsSources where
  countActiveUsersDb : Nat → Nat
  countNewUsersDb : Nat → Nat
  gitHubContributorsFetch : Except String Nat
  gitHubStargazersFetch : Except String Nat

/-- Observable side effects of `getStatistics`: the underlying counter
invocations and the cache write-back. -/
inductive StatEffect where
  | dbCountActiveUsers (days : Nat)
  | dbCountNewUsers (days : Nat)
  | httpGitHubContributors
  | httpGitHubStargazers
  | cacheWrite
deriving DecidableEq, Repr

namespace InfoService

/-- `InfoService.DEMO_USER_ID`. -/
def DEMO_USER_ID : String := "9b112b4d-3b7d-4bad-9bdd-3b0f7b4dac2f"

end InfoService

/-- `InfoService.countActiveUsers`: the Prisma count of users whose
analytics record was updated within the window. -/
def countActiveUsers (src : StatsSources) (aDays : Nat) : Nat :=
  src.countActiveUsersDb aDays

/-- `InfoService.countNewUsers`: the Prisma count of users created within
the window that have an analytics record. -/
def countNewUsers (src : StatsSources) (aDays : Nat) : Nat :=
  src.countNewUsersDb aDays

/-- `InfoService.countGitHubContributors`: on fetch success the
contributor count, on failure the error is caught (and logged) and
`undefined` is returned. -/
def countGitHubContributors (src : StatsSources) : Option Nat :=
  match src.gitHubContributorsFetch with
  | Except.ok n => some n
  | Except.error _ => none

/-- `InfoService.countGitHubStargazers`: on fetch success the stargazer
count, on failure the error is caught (and logged) and `undefined` is
returned. -/
def countGitHubStargazers (src : StatsSources) : Option Nat :=
  match src.gitHubStargazersFetch with
  | Except.ok n => some n
  | Except.error _ => none

/-- The recomputation phase of `getStatistics`: the six counters, in
source order. -/
def computeStatistics (src : StatsSources) : Statistics :=
  { activeUsers1d := countActiveUsers src 1
    activeUsers7d := countActiveUsers src 7
    activeUsers30d := countActiveUsers src 30
    gitHubContributors := countGitHubContributors src
    gitHubStargazers := countGitHubStargazers src
    newUsers30d := countNewUsers src 30 }

/-- Effect trace of a full recomputation: three active-user counts, the
new-user count, the two GitHub fetches, and the cache write-back. -/
def recomputeEffects : List StatEffect :=
  [StatEffect.dbCountActiveUsers 1, StatEffect.dbCountActiveUsers 7,
   StatEffect.dbCountActiveUsers 30, StatEffect.dbCountNewUsers 30,
   StatEffect.httpGitHubContributors, StatEffect.httpGitHubStargazers,
   StatEffect.cacheWrite]

/-- `InfoService.getStatistics`.  The cache is modelled as the content
under the fixed `STATISTICS` key (`Option V`); the JSON codec is an
external collaborator, modelled by the `parseStats`/`stringifyStats`
parameters with `parseStats` able to fail (`JSON.parse` throwing, or the
parsed value being falsy, both land in the caught-and-ignored branch, as
does a cache miss).  Returns the result (`none` when the feature flag is
off), the new cache content, and the effect trace. -/
def getStatistics {V : Type} (parseStats : V → Option Statistics)
    (stringifyStats : Statistics → V) (enableStatistics : Bool)
    (cache : Option V) (src : StatsSources) :
    Option Statistics × Option V × List StatEffect :=
  if !enableStatistics then (none, cache, [])
  else
    match (match cache with
           | none => none
           | some v => parseStats v : Option Statistics) with
    | some statistics => (some statistics, cache, [])
    | none =>
      let statistics := computeStatistics src
      (some statistics, some (stringifyStats statistics), recomputeEffects)

/-- `InfoService.getSubscriptions`.  `P` is the type of the stored
`STRIPE_CONFIG` property value, `S` the subscription type;
`parseSubscription` models `JSON.parse` on the stored value (the success
path, the only one the source handles).  Returns `none` (`undefined`)
when the feature flag is off — distinguished from `some []`. -/
def getSubscriptions {P S : Type} (parseSubscription : P → S)
    (enableSubscription : Bool) (stripeConfig : Option P) :
    Option (List S) :=
  if !enableSubscription then none
  else
    match stripeConfig with
    | some cfg => some [parseSubscription cfg]
    | none => some []

/-- The named boolean configuration options read by `InfoService.get`,
plus the `STRIPE_PUBLIC_KEY` value read under the subscription flag. -/
structure Config where
  enableBlog : Bool
  enableImport : Bool
  enableSocialLogin : Bool
  enableStatistics : Bool
  enableSubscription : Bool
  stripePublicKey : String
deriving DecidableEq, Repr

namespace permissions

/-- Modelled from the spec: the permission tags of the common
`permissions` module (not among the shown sources); the spec only
requires a distinct fixed tag per feature flag. -/
def enableBlog : String := "enableBlog"

/-- Modelled from the spec: permission tag of the import feature. -/
def enableImport : String := "enableImport"

/-- Modelled from the spec: permission tag of the social-login feature. -/
def enableSocialLogin : String := "enableSocialLogin"

/-- Modelled from the spec: permission tag of the statistics feature. -/
def enableStatistics : String := "enableStatistics"

/-- Modelled from the spec: permission tag of the subscription feature. -/
def enableSubscription : String := "enableSubscription"

end permissions

/-- The sequence of conditional `globalPermissions.push` calls of
`InfoService.get`, as a function of the five flags. -/
def permTags (b1 b2 b3 b4 b5 : Bool) : List String :=
  (if b1 then [permissions.enableBlog] else []) ++
  (if b2 then [permissions.enableImport] else []) ++
  (if b3 then [permissions.enableSocialLogin] else []) ++
  (if b4 then [permissions.enableStatistics] else []) ++
  (if b5 then [permissions.enableSubscription] else [])

/-- The remaining leaf collaborators of `InfoService.get`: the platform
catalog query (already sorted by name, per the Prisma `orderBy`), the
currency list, the JWT signer, the last-data-gathering timestamp, the
primary data source, the statistics collaborators, and the
`STRIPE_CONFIG` property record. -/
structure InfoEnv (V P S : Type) where
  platforms : List (String × String)
  currencies : List String
  sign : String → String
  lastDataGatheringTs : Option Nat
  primaryDataSource : String
  parseStats : V → Option Statistics
  stringifyStats : Statistics → V
  statisticsCache : Option V
  statsSources : StatsSources
  parseSubscription : P → S
  stripeConfigProperty : Option P

/-- The `InfoItem` composite view returned by `InfoService.get`.
Optional fields are `Option`s: `none` models the field being omitted
(`undefined`), matching the source's conditional assembly. -/
structure InfoItem (S : Type) where
  stripePublicKey : Option String
  globalPermissions : List String
  platforms : List (String × String)
  currencies : List String
  demoAuthToken : String
  lastDataGathering : Option Nat
  primaryDataSource : String
  statistics : Option Statistics
  subscriptions : Option (List S)

/-- `InfoService.getDemoAuthToken`: sign a payload holding the fixed demo
user id. -/
def getDemoAuthToken {V P S : Type} (env : InfoEnv V P S) : String :=
  env.sign InfoService.DEMO_USER_ID

/-- `InfoService.getLastDataGathering`: the recorded timestamp, or the
null sentinel (`none`) if none recorded (`?? null`). -/
def getLastDataGathering {V P S : Type} (env : InfoEnv V P S) :
    Option Nat :=
  env.lastDataGatheringTs

/-- `InfoService.get`: assemble the composite info object.  The
`stripePublicKey` field is set only under the subscription flag; the
statistics and subscriptions sub-results come from their sub-routines
(for statistics only the returned value enters the info object; the cache
write-back is not part of the `InfoItem`). -/
def InfoService.get {V P S : Type} (cfg : Config) (env : InfoEnv V P S) :
    InfoItem S :=
  { stripePublicKey :=
      if cfg.enableSubscription then some cfg.stripePublicKey else none
    globalPermissions :=
      permTags cfg.enableBlog cfg.enableImport cfg.enableSocialLogin
        cfg.enableStatistics cfg.enableSubscription
    platforms := env.platforms
    currencies := env.currencies
    demoAuthToken := getDemoAuthToken env
    lastDataGathering := getLastDataGathering env
    primaryDataSource := env.primaryDataSource
    statistics :=
      (getStatistics env.parseStats env.stringifyStats cfg.enableStatistics
        env.statisticsCache env.statsSources).1
    subscriptions :=
      getSubscriptions env.parseSubscription cfg.enableSubscription
        env.stripeConfigProperty }

/-- "The permission list gained exactly the tag `tag`": the on-list is the
off-list with `tag` inserted at one position, and `tag` occurs nowhere
else in either list. -/
def insertedTag (tag : String) (onPerms offPerms : List String) : Prop :=
  ∃ pre suf, offPerms = pre ++ suf ∧ onPerms = pre ++ tag :: suf ∧
    tag ∉ pre ∧ tag ∉ suf

/-! ### Concrete instances used to evaluate the model -/

/-- A data provider knowing exactly the pair (YAHOO, AAPL). -/
def exProvider : DataProvider := fun ds s => ds == "YAHOO" && s == "AAPL"

/-- A data provider knowing every (dataSource, symbol) pair. -/
def exProviderAll : DataProvider := fun _ _ => true

/-- An already-persisted order of user `user1`, at 01:00 of day 0. -/
def exExistingOrder : PersistedOrder :=
  { accountId := "acct1"
    currency := "USD"
    dataSource := "YAHOO"
    date := 3600000
    fee := 1
    quantity := 10
    symbol := "AAPL"
    type := "BUY"
    unitPrice := 100
    userId := "user1" }

/-- An order store holding just `exExistingOrder`. -/
def exDb : OrderDb := [exExistingOrder]

/-- A candidate at 02:00 of day 0 matching `exExistingOrder` on the dedup
tuple (same calendar day, different timestamp). -/
def exDupCandidate : Candidate :=
  { accountId := "acct1"
    currency := "USD"
    dataSource := "YAHOO"
    date := 7200000
    fee := 1
    quantity := 10
    symbol := "AAPL"
    type := "BUY"
    unitPrice := 100 }

/-- A candidate whose symbol `XXXX` is unknown to `exProvider` and which
duplicates no existing order. -/
def exBadCandidate : Candidate :=
  { accountId := "acct1"
    currency := "USD"
    dataSource := "YAHOO"
    date := 0
    fee := 2
    quantity := 5
    symbol := "XXXX"
    type := "BUY"
    unitPrice := 50 }

/-- A candidate valid for `exProvider` that duplicates no existing
order. -/
def exGoodCandidate : Candidate :=
  { accountId := "acct1"
    currency := "EUR"
    dataSource := "YAHOO"
    date := 0
    fee := 0
    quantity := 1
    symbol := "AAPL"
    type := "BUY"
    unitPrice := 90 }

/-- Identity parse on an already-structured cache value: a concrete
instance of the JSON-codec parameters of `getStatistics`. -/
def statParse : Option Statistics → Option Statistics := fun v => v

/-- Serialization partner of `statParse`. -/
def statStringify : Statistics → Option Statistics := some

/-- Statistics collaborators where the contributors fetch succeeds and
the stargazers fetch fails. -/
def exStatsSources : StatsSources :=
  { countActiveUsersDb := fun d => d + 1
    countNewUsersDb := fun d => d
    gitHubContributorsFetch := Except.ok 40
    gitHubStargazersFetch := Except.error "HTTP 500" }

/-- A second, different set of statistics collaborators. -/
def exStatsSources2 : StatsSources :=
  { countActiveUsersDb := fun _ => 99
    countNewUsersDb := fun _ => 98
    gitHubContributorsFetch := Except.error "timeout"
    gitHubStargazersFetch := Except.ok 7 }

/-! ### Lemmas about the validation loop -/

/-- When every candidate is clean (no duplicate, valid symbol), the loop
succeeds and its trace is exactly one lookup per candidate, in batch
order. -/
theorem validateOrdersLoop_ok (provider : DataProvider)
    (existing : List PersistedOrder) (orders : List Candidate) (i : Nat)
    (hdup : ∀ c ∈ orders, existing.any (fun o => isDupOf o c) = false)
    (hsym : ∀ c ∈ orders, provider c.dataSource c.symbol = true) :
    validateOrdersLoop provider existing i orders =
      (Except.ok (),
       orders.map (fun c => Effect.lookup c.dataSource c.symbol)) := by
  induction orders generalizing i with
  | nil => rfl
  | cons c rest ih =>
    have h1 := hdup c (List.mem_cons_self c rest)
    have h2 := hsym c (List.mem_cons_self c rest)
    have ih' := ih (i + 1) (fun x hx => hdup x (List.mem_cons_of_mem _ hx))
      (fun x hx => hsym x (List.mem_cons_of_mem _ hx))
    simp [validateOrdersLoop, h1, h2, ih']

/-- If the loop reports success, no candidate duplicated an existing
order. -/
theorem validateOrdersLoop_ok_no_dup (provider : DataProvider)
    (existing : List PersistedOrder) (orders : List Candidate) (i : Nat)
    (h : (validateOrdersLoop provider existing i orders).1 = Except.ok ()) :
    ∀ c ∈ orders, existing.any (fun o => isDupOf o c) = false := by
  induction orders generalizing i with
  | nil => intro c hc; cases hc
  | cons c rest ih =>
    intro x hx
    by_cases hd : existing.any (fun o => isDupOf o c) = true
    · simp [validateOrdersLoop, hd] at h
    · have hd' : existing.any (fun o => isDupOf o c) = false :=
        Bool.eq_false_iff.mpr hd
      rcases List.mem_cons.mp hx with hx | hx
      · exact hx ▸ hd'
      · by_cases hp : provider c.dataSource c.symbol = true
        · have h' :
              (validateOrdersLoop provider existing (i + 1) rest).1 =
                Except.ok () := by
            simpa [validateOrdersLoop, hd', hp] using h
          exact ih (i + 1) h' x hx
        · simp [validateOrdersLoop, hd', Bool.eq_false_iff.mpr hp] at h

/-- Splitting lemma: with a clean prefix `pre` and a duplicate candidate
`c` right after it, the loop fails with `duplicateOrder` at the index of
`c`, after exactly one lookup per prefix candidate. -/
theorem validateOrdersLoop_first_dup (provider : DataProvider)
    (existing : List PersistedOrder) (pre suf : List Candidate)
    (c : Candidate) (i : Nat)
    (hdup : existing.any (fun o => isDupOf o c) = true)
    (hpre : ∀ x ∈ pre, existing.any (fun o => isDupOf o x) = false ∧
      provider x.dataSource x.symbol = true) :
    validateOrdersLoop provider existing i (pre ++ c :: suf) =
      (Except.error (ImportError.duplicateOrder (i + pre.length)),
       pre.map (fun x => Effect.lookup x.dataSource x.symbol)) := by
  induction pre generalizing i with
  | nil => simp [validateOrdersLoop, hdup]
  | cons x pre ih =>
    have hx := hpre x (List.mem_cons_self x pre)
    have ih' := ih (i + 1) (fun y hy => hpre y (List.mem_cons_of_mem _ hy))
    simp [validateOrdersLoop, hx.1, hx.2, ih']
    omega

/-- Splitting lemma: with a clean prefix `pre` and a non-duplicate
candidate `c` of invalid symbol right after it, the loop fails with
`invalidSymbol` at the index of `c`, after one lookup per prefix
candidate plus the lookup of `c` itself. -/
theorem validateOrdersLoop_first_invalid (provider : DataProvider)
    (existing : List PersistedOrder) (pre suf : List Candidate)
    (c : Candidate) (i : Nat)
    (hcdup : existing.any (fun o => isDupOf o c) = false)
    (hcsym : provider c.dataSource c.symbol = false)
    (hpre : ∀ x ∈ pre, existing.any (fun o => isDupOf o x) = false ∧
      provider x.dataSource x.symbol = true) :
    validateOrdersLoop provider existing i (pre ++ c :: suf) =
      (Except.error
        (ImportError.invalidSymbol (i + pre.length) c.symbol c.dataSource),
       pre.map (fun x => Effect.lookup x.dataSource x.symbol) ++
         [Effect.lookup c.dataSource c.symbol]) := by
  induction pre generalizing i with
  | nil => simp [validateOrdersLoop, hcdup, hcsym]
  | cons x pre ih =>
    have hx := hpre x (List.mem_cons_self x pre)
    have ih' := ih (i + 1) (fun y hy => hpre y (List.mem_cons_of_mem _ hy))
    simp [validateOrdersLoop, hx.1, hx.2, ih']
    omega

/-- When the batch passes the size check, `validateOrders` is the read
followed by the loop. -/
theorem validateOrders_small (provider : DataProvider) (db : OrderDb)
    (orders : List Candidate) (userId : String)
    (h : ¬ ImportService.MAX_ORDERS_TO_IMPORT < orders.length) :
    validateOrders provider db orders userId =
      ((validateOrdersLoop provider (ordersOf db userId) 0 orders).1,
       Effect.readOrders userId ::
         (validateOrdersLoop provider (ordersOf db userId) 0 orders).2) := by
  simp [validateOrders, h]

/-- Success inversion for `importOrders`: a successful import means the
validation loop succeeded and the new store is the old one extended with
one record per candidate, in input order. -/
theorem importOrders_ok_inv (provider : DataProvider) (db : OrderDb)
    (orders : List Candidate) (userId : String) (db' : OrderDb)
    (h : (importOrders provider db orders userId).1 = Except.ok db') :
    (validateOrdersLoop provider (ordersOf db userId) 0 orders).1 =
      Except.ok () ∧
    db' = db ++ orders.map (createOrderRecord userId) := by
  by_cases hl : ImportService.MAX_ORDERS_TO_IMPORT < orders.length
  · simp [importOrders, validateOrders, hl] at h
  · rcases hr : validateOrdersLoop provider (ordersOf db userId) 0 orders
      with ⟨res, effs⟩
    cases res with
    | error e => simp [importOrders, validateOrders, hl, hr] at h
    | ok u =>
      cases u
      simp [importOrders, validateOrders, hl, hr] at h
      exact ⟨by simp [hr], h.symm⟩

/-- C1: a batch that passes validation (size at most 20, no candidate
duplicating an existing order of the user, every (dataSource, symbol)
known to the provider) is imported by creating exactly one persisted
record per candidate, in input order, each linked to the candidate's
`accountId` and the given `userId`; the trace shows the read and all
per-candidate lookups strictly before any `create`. -/
theorem importValidBatchCreatesAll (provider : DataProvider) (db : OrderDb)
    (orders : List Candidate) (userId : String)
    (hlen : orders.length ≤ ImportService.MAX_ORDERS_TO_IMPORT)
    (hdup : ∀ c ∈ orders,
      (ordersOf db userId).any (fun o => isDupOf o c) = false)
    (hsym : ∀ c ∈ orders, provider c.dataSource c.symbol = true) :
    importOrders provider db orders userId =
      (Except.ok (db ++ orders.map (createOrderRecord userId)),
       Effect.readOrders userId ::
         (orders.map (fun c => Effect.lookup c.dataSource c.symbol) ++
          (orders.map (createOrderRecord userId)).map Effect.create)) ∧
    ∀ c ∈ orders, (createOrderRecord userId c).accountId = c.accountId ∧
      (createOrderRecord userId c).userId = userId := by
  have hl : ¬ ImportService.MAX_ORDERS_TO_IMPORT < orders.length := by
    omega
  have hloop := validateOrdersLoop_ok provider (ordersOf db userId) orders 0
    hdup hsym
  exact ⟨by simp [importOrders, validateOrders, hl, hloop],
    fun c _ => ⟨rfl, rfl⟩⟩

/-- C1 witness: a concrete one-candidate batch against a store already
holding an order of the same user. -/
theorem importValidBatchCreatesAll_witness :
    ([exGoodCandidate].length ≤ ImportService.MAX_ORDERS_TO_IMPORT ∧
     (∀ c ∈ [exGoodCandidate],
       (ordersOf exDb "user1").any (fun o => isDupOf o c) = false) ∧
     (∀ c ∈ [exGoodCandidate],
       exProvider c.dataSource c.symbol = true)) ∧
    importOrders exProvider exDb [exGoodCandidate] "user1" =
      (Except.ok (exDb ++ [exGoodCandidate].map (createOrderRecord "user1")),
       Effect.readOrders "user1" ::
         ([exGoodCandidate].map
            (fun c => Effect.lookup c.dataSource c.symbol) ++
          ([exGoodCandidate].map (createOrderRecord "user1")).map
            Effect.create)) :=
  ⟨⟨by decide, by decide, by decide⟩,
   (importValidBatchCreatesAll exProvider exDb [exGoodCandidate] "user1"
     (by decide) (by decide) (by decide)).1⟩

/-- C2: a batch of more than 20 candidates is rejected with the
batch-too-large error and an empty effect trace: no existing-orders read,
no data-provider lookup, no record created. -/
theorem importTooLargeBatchRejected (provider : DataProvider)
    (db : OrderDb) (orders : List Candidate) (userId : String)
    (h : ImportService.MAX_ORDERS_TO_IMPORT < orders.length) :
    importOrders provider db orders userId =
      (Except.error ImportError.batchTooLarge, []) := by
  simp [importOrders, validateOrders, h]

/-- C2 witness: a concrete batch of 21 candidates. -/
theorem importTooLargeBatchRejected_witness :
    ImportService.MAX_ORDERS_TO_IMPORT <
      (List.replicate 21 exGoodCandidate).length ∧
    importOrders exProvider exDb (List.replicate 21 exGoodCandidate)
      "user1" = (Except.error ImportError.batchTooLarge, []) :=
  ⟨by decide,
   importTooLargeBatchRejected exProvider exDb
     (List.replicate 21 exGoodCandidate) "user1" (by decide)⟩

/-- C3 counterexample: a batch containing a candidate (index 1) that
duplicates an existing order of the user on the dedup tuple, yet import
fails with `invalidSymbol` for index 0 — an earlier candidate with an
unknown symbol preempts the duplicate error, so the claim as stated
(duplicate always answered with `duplicateOrder` at the duplicate's
index) is false. -/
theorem importDuplicateNotAlwaysReported :
    (ordersOf exDb "user1").any (fun o => isDupOf o exDupCandidate) =
      true ∧
    (importOrders exProvider exDb [exBadCandidate, exDupCandidate]
      "user1").1 =
      Except.error (ImportError.invalidSymbol 0 "XXXX" "YAHOO") ∧
    ImportError.invalidSymbol 0 "XXXX" "YAHOO" ≠
      ImportError.duplicateOrder 1 :=
  ⟨by decide, rfl, by decide⟩

/-- C3 (amended): provided the batch passes the size check and every
candidate before the first duplicate passes both checks, import fails
with `duplicateOrder` at the index of the first duplicating candidate,
with a trace holding only the read and the earlier lookups — no record
is created. -/
theorem importDuplicateOrderRejected (provider : DataProvider)
    (db : OrderDb) (userId : String) (pre suf : List Candidate)
    (c : Candidate)
    (hlen :
      (pre ++ c :: suf).length ≤ ImportService.MAX_ORDERS_TO_IMPORT)
    (hdup : (ordersOf db userId).any (fun o => isDupOf o c) = true)
    (hpre : ∀ x ∈ pre,
      (ordersOf db userId).any (fun o => isDupOf o x) = false ∧
      provider x.dataSource x.symbol = true) :
    importOrders provider db (pre ++ c :: suf) userId =
      (Except.error (ImportError.duplicateOrder pre.length),
       Effect.readOrders userId ::
         pre.map (fun x => Effect.lookup x.dataSource x.symbol)) := by
  have hl :
      ¬ ImportService.MAX_ORDERS_TO_IMPORT <
        (pre ++ c :: suf).length := by omega
  have hsmall :=
    validateOrders_small provider db (pre ++ c :: suf) userId hl
  have hloop := validateOrdersLoop_first_dup provider (ordersOf db userId)
    pre suf c 0 hdup hpre
  simp only [importOrders, hsmall, hloop]
  simp

/-- C3 witness: one clean candidate followed by a duplicate of the
existing order (same calendar day, different timestamp). -/
theorem importDuplicateOrderRejected_witness :
    (([exGoodCandidate] ++ exDupCandidate :: []).length ≤
       ImportService.MAX_ORDERS_TO_IMPORT ∧
     (ordersOf exDb "user1").any (fun o => isDupOf o exDupCandidate) =
       true ∧
     (∀ x ∈ [exGoodCandidate],
       (ordersOf exDb "user1").any (fun o => isDupOf o x) = false ∧
       exProvider x.dataSource x.symbol = true)) ∧
    importOrders exProvider exDb ([exGoodCandidate] ++ exDupCandidate :: [])
      "user1" =
      (Except.error (ImportError.duplicateOrder [exGoodCandidate].length),
       Effect.readOrders "user1" ::
         [exGoodCandidate].map
           (fun x => Effect.lookup x.dataSource x.symbol)) :=
  ⟨⟨by decide, by decide, by decide⟩,
   importDuplicateOrderRejected exProvider exDb "user1" [exGoodCandidate]
     [] exDupCandidate (by decide) (by decide) (by decide)⟩

/-- C4 counterexample: a batch containing a candidate (index 1) whose
(dataSource, symbol) is unknown to the provider, yet import fails with
`duplicateOrder` for index 0 — an earlier duplicate preempts the
invalid-symbol error, so the claim as stated is false. -/
theorem importInvalidSymbolNotAlwaysReported :
    exProvider exBadCandidate.dataSource exBadCandidate.symbol = false ∧
    (importOrders exProvider exDb [exDupCandidate, exBadCandidate]
      "user1").1 =
      Except.error (ImportError.duplicateOrder 0) ∧
    ImportError.duplicateOrder 0 ≠
      ImportError.invalidSymbol 1 "XXXX" "YAHOO" :=
  ⟨by decide, rfl, by decide⟩

/-- C4 (amended): provided the batch passes the size check, the first
invalid-symbol candidate is itself no duplicate (the duplicate check runs
first at each index), and every earlier candidate passes both checks, the
batch is rejected with `invalidSymbol` carrying that candidate's index,
symbol and dataSource; the trace holds the read and the lookups up to and
including the failing one — no record is created. -/
theorem importInvalidSymbolRejected (provider : DataProvider)
    (db : OrderDb) (userId : String) (pre suf : List Candidate)
    (c : Candidate)
    (hlen :
      (pre ++ c :: suf).length ≤ ImportService.MAX_ORDERS_TO_IMPORT)
    (hcdup : (ordersOf db userId).any (fun o => isDupOf o c) = false)
    (hcsym : provider c.dataSource c.symbol = false)
    (hpre : ∀ x ∈ pre,
      (ordersOf db userId).any (fun o => isDupOf o x) = false ∧
      provider x.dataSource x.symbol = true) :
    importOrders provider db (pre ++ c :: suf) userId =
      (Except.error
        (ImportError.invalidSymbol pre.length c.symbol c.dataSource),
       Effect.readOrders userId ::
         (pre.map (fun x => Effect.lookup x.dataSource x.symbol) ++
          [Effect.lookup c.dataSource c.symbol])) := by
  have hl :
      ¬ ImportService.MAX_ORDERS_TO_IMPORT <
        (pre ++ c :: suf).length := by omega
  have hsmall :=
    validateOrders_small provider db (pre ++ c :: suf) userId hl
  have hloop := validateOrdersLoop_first_invalid provider
    (ordersOf db userId) pre suf c 0 hcdup hcsym hpre
  simp only [importOrders, hsmall, hloop]
  simp

/-- C4 witness: the invalid-symbol candidate sits at index 0, followed by
a clean candidate. -/
theorem importInvalidSymbolRejected_witness :
    (([] ++ exBadCandidate :: [exGoodCandidate]).length ≤
       ImportService.MAX_ORDERS_TO_IMPORT ∧
     (ordersOf exDb "user1").any (fun o => isDupOf o exBadCandidate) =
       false ∧
     exProvider exBadCandidate.dataSource exBadCandidate.symbol = false) ∧
    importOrders exProvider exDb ([] ++ exBadCandidate :: [exGoodCandidate])
      "user1" =
      (Except.error
        (ImportError.invalidSymbol (List.length ([] : List Candidate))
          exBadCandidate.symbol exBadCandidate.dataSource),
       Effect.readOrders "user1" ::
         (([] : List Candidate).map
            (fun x => Effect.lookup x.dataSource x.symbol) ++
          [Effect.lookup exBadCandidate.dataSource
            exBadCandidate.symbol])) :=
  ⟨⟨by decide, by decide, by decide⟩,
   importInvalidSymbolRejected exProvider exDb "user1" []
     [exGoodCandidate] exBadCandidate (by decide) (by decide) (by decide)
     (by intro x hx; cases hx)⟩

/-- C5 counterexample: from the empty store (which satisfies the dedup
invariant) a batch holding the same candidate twice passes validation —
candidates are only checked against already-persisted orders — and the
resulting store holds two orders of one user sharing the dedup tuple, so
the invariant is not preserved. -/
theorem importBreaksDedupInvariant :
    DedupInvariant [] ∧
    (importOrders exProviderAll [] [exGoodCandidate, exGoodCandidate]
      "user1").1 =
      Except.ok [createOrderRecord "user1" exGoodCandidate,
                 createOrderRecord "user1" exGoodCandidate] ∧
    ¬ DedupInvariant [createOrderRecord "user1" exGoodCandidate,
                      createOrderRecord "user1" exGoodCandidate] := by
  refine ⟨fun u => by simp [ordersOf], rfl, fun h => ?_⟩
  exact absurd (h "user1") (by decide)

/-- C5 (amended): the dedup invariant is preserved by every successful
batch import in which no two candidates share the dedup tuple. -/
theorem importPreservesDedupInvariant (provider : DataProvider)
    (db : OrderDb) (orders : List Candidate) (userId : String)
    (db' : OrderDb) (hinv : DedupInvariant db)
    (hbatch : orders.Pairwise (fun a b => candidateDedupEq a b = false))
    (hok : (importOrders provider db orders userId).1 = Except.ok db') :
    DedupInvariant db' := by
  obtain ⟨hval, hdb⟩ :=
    importOrders_ok_inv provider db orders userId db' hok
  have hnodup := validateOrdersLoop_ok_no_dup provider (ordersOf db userId)
    orders 0 hval
  subst hdb
  intro u
  have hfil : ordersOf (db ++ orders.map (createOrderRecord userId)) u =
      ordersOf db u ++
        (orders.map (createOrderRecord userId)).filter
          (fun o => o.userId == u) := by
    simp [ordersOf]
  rw [hfil]
  by_cases hu : u = userId
  · subst hu
    have hrec : (orders.map (createOrderRecord u)).filter
        (fun o => o.userId == u) = orders.map (createOrderRecord u) := by
      refine List.filter_eq_self.mpr ?_
      intro a ha
      obtain ⟨c, _, rfl⟩ := List.mem_map.mp ha
      simp [createOrderRecord]
    rw [hrec, List.pairwise_append]
    refine ⟨hinv u, ?_, ?_⟩
    · exact hbatch.map (createOrderRecord u) (fun a b hab => hab)
    · intro a ha b hb
      obtain ⟨c, hc, rfl⟩ := List.mem_map.mp hb
      have hcany := hnodup c hc
      have := List.any_eq_false.mp hcany a ha
      exact Bool.eq_false_iff.mpr this
  · have hrec : (orders.map (createOrderRecord userId)).filter
        (fun o => o.userId == u) = [] := by
      refine List.filter_eq_nil_iff.mpr ?_
      intro a ha
      obtain ⟨c, _, rfl⟩ := List.mem_map.mp ha
      simp [createOrderRecord]
      exact fun hh => hu hh.symm
    rw [hrec, List.append_nil]
    exact hinv u

/-- C5 witness: importing one clean candidate into the concrete store
preserves the invariant. -/
theorem importPreservesDedupInvariant_witness :
    (DedupInvariant exDb ∧
     ([exGoodCandidate] : List Candidate).Pairwise
       (fun a b => candidateDedupEq a b = false) ∧
     (importOrders exProvider exDb [exGoodCandidate] "user1").1 =
       Except.ok (exDb ++ [createOrderRecord "user1" exGoodCandidate])) ∧
    DedupInvariant (exDb ++ [createOrderRecord "user1" exGoodCandidate]) := by
  have hinv : DedupInvariant exDb := by
    intro u
    simp only [exDb, ordersOf, List.filter]
    cases exExistingOrder.userId == u <;> simp
  have hbatch : ([exGoodCandidate] : List Candidate).Pairwise
      (fun a b => candidateDedupEq a b = false) := by simp
  have hok : (importOrders exProvider exDb [exGoodCandidate] "user1").1 =
      Except.ok (exDb ++ [createOrderRecord "user1" exGoodCandidate]) :=
    rfl
  exact ⟨⟨hinv, hbatch, hok⟩,
    importPreservesDedupInvariant exProvider exDb [exGoodCandidate]
      "user1" _ hinv hbatch hok⟩

/-! ### Info-service theorems -/

/-- With the statistics flag on, `getStatistics` always produces a value:
every cache content and every fetch outcome ends in `some`. -/
theorem getStatistics_on_isSome {V : Type} (parseStats : V → Option Statistics)
    (stringifyStats : Statistics → V) (cache : Option V)
    (src : StatsSources) :
    (getStatistics parseStats stringifyStats true cache src).1.isSome =
      true := by
  simp only [getStatistics]
  cases cache with
  | none => rfl
  | some v =>
    simp only []
    cases parseStats v <;> rfl

/-- With the subscription flag on, `getSubscriptions` always produces a
list (possibly empty), never `none`. -/
theorem getSubscriptions_on_isSome {P S : Type}
    (parseSubscription : P → S) (stripeConfig : Option P) :
    (getSubscriptions parseSubscription true stripeConfig).isSome =
      true := by
  cases stripeConfig <;> rfl

/-- C6: cache-aside.  On a cache miss (flag on), `getStatistics` computes
the six counters, returns the computed value and writes its serialization
back under the statistics key (trace `recomputeEffects`, ending in the
cache write); any later call that finds that entry returns the identical
value with an empty effect trace — no database count and no GitHub fetch
— even against different collaborators `src2`. -/
theorem getStatisticsCacheAside {V : Type}
    (parseStats : V → Option Statistics) (stringifyStats : Statistics → V)
    (src src2 : StatsSources)
    (hrt : parseStats (stringifyStats (computeStatistics src)) =
      some (computeStatistics src)) :
    getStatistics parseStats stringifyStats true none src =
      (some (computeStatistics src),
       some (stringifyStats (computeStatistics src)), recomputeEffects) ∧
    getStatistics parseStats stringifyStats true
      (some (stringifyStats (computeStatistics src))) src2 =
      (some (computeStatistics src),
       some (stringifyStats (computeStatistics src)), []) := by
  exact ⟨rfl, by simp [getStatistics, hrt]⟩

/-- C6 witness: a concrete codec (identity parse over structured cache
values) and concrete counters; the second call runs against different
counters and still returns the first call's value untouched. -/
theorem getStatisticsCacheAside_witness :
    statParse (statStringify (computeStatistics exStatsSources)) =
      some (computeStatistics exStatsSources) ∧
    (getStatistics statParse statStringify true none exStatsSources =
      (some (computeStatistics exStatsSources),
       some (statStringify (computeStatistics exStatsSources)),
       recomputeEffects) ∧
     getStatistics statParse statStringify true
       (some (statStringify (computeStatistics exStatsSources)))
       exStatsSources2 =
      (some (computeStatistics exStatsSources),
       some (statStringify (computeStatistics exStatsSources)), [])) :=
  ⟨rfl, getStatisticsCacheAside statParse statStringify exStatsSources
    exStatsSources2 rfl⟩

/-- C7: with the flag on, a cached value that parses is returned as-is
with no effects (no recomputation); a cache miss or a failed parse is
swallowed and leads to a full recomputation instead of a failure. -/
theorem getStatisticsParseFallback {V : Type}
    (parseStats : V → Option Statistics) (stringifyStats : Statistics → V)
    (cache : Option V) (src : StatsSources) :
    (∀ v, cache = some v → ∀ s, parseStats v = some s →
      getStatistics parseStats stringifyStats true cache src =
        (some s, cache, [])) ∧
    ((match cache with
      | none => none
      | some v => parseStats v : Option Statistics) = none →
      getStatistics parseStats stringifyStats true cache src =
        (some (computeStatistics src),
         some (stringifyStats (computeStatistics src)),
         recomputeEffects)) := by
  constructor
  · rintro v rfl s hs
    simp [getStatistics, hs]
  · intro h
    cases cache with
    | none => rfl
    | some v =>
      have h' : parseStats v = none := h
      simp [getStatistics, h']

/-- C7 witness: a present-and-parsable entry is returned untouched; an
unparsable entry triggers recomputation. -/
theorem getStatisticsParseFallback_witness :
    getStatistics statParse statStringify true
      (some (some (computeStatistics exStatsSources2))) exStatsSources =
      (some (computeStatistics exStatsSources2),
       some (some (computeStatistics exStatsSources2)), []) ∧
    getStatistics statParse statStringify true (some none) exStatsSources =
      (some (computeStatistics exStatsSources),
       some (statStringify (computeStatistics exStatsSources)),
       recomputeEffects) :=
  ⟨(getStatisticsParseFallback statParse statStringify
      (some (some (computeStatistics exStatsSources2))) exStatsSources).1
      (some (computeStatistics exStatsSources2)) rfl
      (computeStatistics exStatsSources2) rfl,
   (getStatisticsParseFallback statParse statStringify (some none)
      exStatsSources).2 rfl⟩

/-- C8: a failed GitHub fetch is converted into a missing value for the
corresponding field (and a successful one into its count), and the
statistics computation as a whole still succeeds — `getStatistics` with
the flag on returns a value for every fetch outcome. -/
theorem gitHubFailuresTolerated {V : Type}
    (parseStats : V → Option Statistics) (stringifyStats : Statistics → V)
    (cache : Option V) (src : StatsSources) :
    (∀ e, src.gitHubContributorsFetch = Except.error e →
      (computeStatistics src).gitHubContributors = none) ∧
    (∀ e, src.gitHubStargazersFetch = Except.error e →
      (computeStatistics src).gitHubStargazers = none) ∧
    (∀ n, src.gitHubContributorsFetch = Except.ok n →
      (computeStatistics src).gitHubContributors = some n) ∧
    (∀ n, src.gitHubStargazersFetch = Except.ok n →
      (computeStatistics src).gitHubStargazers = some n) ∧
    (getStatistics parseStats stringifyStats true cache src).1.isSome =
      true := by
  refine ⟨?_, ?_, ?_, ?_,
    getStatistics_on_isSome parseStats stringifyStats cache src⟩
  · intro e he; simp [computeStatistics, countGitHubContributors, he]
  · intro e he; simp [computeStatistics, countGitHubStargazers, he]
  · intro n hn; simp [computeStatistics, countGitHubContributors, hn]
  · intro n hn; simp [computeStatistics, countGitHubStargazers, hn]

/-- C8 witness: concrete collaborators where the stargazers fetch fails
and the contributors fetch succeeds. -/
theorem gitHubFailuresTolerated_witness :
    exStatsSources.gitHubStargazersFetch = Except.error "HTTP 500" ∧
    (computeStatistics exStatsSources).gitHubStargazers = none ∧
    exStatsSources.gitHubContributorsFetch = Except.ok 40 ∧
    (computeStatistics exStatsSources).gitHubContributors = some 40 ∧
    (getStatistics statParse statStringify true none
      exStatsSources).1.isSome = true :=
  ⟨rfl,
   (gitHubFailuresTolerated statParse statStringify none
     exStatsSources).2.1 "HTTP 500" rfl,
   rfl,
   (gitHubFailuresTolerated statParse statStringify none
     exStatsSources).2.2.1 40 rfl,
   (gitHubFailuresTolerated statParse statStringify none
     exStatsSources).2.2.2.2⟩

/-- C9: the subscriptions sub-result is a three-way function of its
inputs — flag off: omitted (`none`); flag on, no `STRIPE_CONFIG` record:
`some []`; flag on, record present: the parsed value in a one-element
list — and the omitted outcome is distinct from the empty list. -/
theorem getSubscriptionsThreeWay {P S : Type}
    (parseSubscription : P → S) (stripeConfig : Option P) :
    getSubscriptions parseSubscription false stripeConfig = none ∧
    getSubscriptions parseSubscription true none = some [] ∧
    (∀ cfg, stripeConfig = some cfg →
      getSubscriptions parseSubscription true stripeConfig =
        some [parseSubscription cfg]) ∧
    (none : Option (List S)) ≠ some [] := by
  refine ⟨rfl, rfl, ?_, by simp⟩
  rintro cfg rfl
  rfl

/-- C9 witness: concrete property store holding a record. -/
theorem getSubscriptionsThreeWay_witness :
    getSubscriptions (fun s : String => s) false (some "stripeCfg") =
      none ∧
    getSubscriptions (fun s : String => s) true none = some [] ∧
    ((some "stripeCfg" : Option String) = some "stripeCfg" →
      getSubscriptions (fun s : String => s) true (some "stripeCfg") =
        some ["stripeCfg"]) ∧
    (none : Option (List String)) ≠ some [] :=
  ⟨(getSubscriptionsThreeWay (fun s : String => s) (some "stripeCfg")).1,
   (getSubscriptionsThreeWay (fun s : String => s) (some "stripeCfg")).2.1,
   fun h => (getSubscriptionsThreeWay (fun s : String => s)
     (some "stripeCfg")).2.2.1 "stripeCfg" h,
   (getSubscriptionsThreeWay (fun s : String => s)
     (some "stripeCfg")).2.2.2⟩

/-- Toggling the blog flag inserts exactly the blog tag. -/
theorem permTags_insert_blog (b2 b3 b4 b5 : Bool) :
    insertedTag permissions.enableBlog (permTags true b2 b3 b4 b5)
      (permTags false b2 b3 b4 b5) := by
  refine ⟨[], permTags false b2 b3 b4 b5, ?_, ?_, ?_, ?_⟩ <;>
    (cases b2 <;> cases b3 <;> cases b4 <;> cases b5 <;> decide)

/-- Toggling the import flag inserts exactly the import tag. -/
theorem permTags_insert_import (b1 b3 b4 b5 : Bool) :
    insertedTag permissions.enableImport (permTags b1 true b3 b4 b5)
      (permTags b1 false b3 b4 b5) := by
  refine ⟨(if b1 then [permissions.enableBlog] else []),
    (if b3 then [permissions.enableSocialLogin] else []) ++
      (if b4 then [permissions.enableStatistics] else []) ++
      (if b5 then [permissions.enableSubscription] else []),
    ?_, ?_, ?_, ?_⟩ <;>
    (cases b1 <;> cases b3 <;> cases b4 <;> cases b5 <;> decide)

/-- Toggling the social-login flag inserts exactly the social-login
tag. -/
theorem permTags_insert_socialLogin (b1 b2 b4 b5 : Bool) :
    insertedTag permissions.enableSocialLogin (permTags b1 b2 true b4 b5)
      (permTags b1 b2 false b4 b5) := by
  refine ⟨(if b1 then [permissions.enableBlog] else []) ++
      (if b2 then [permissions.enableImport] else []),
    (if b4 then [permissions.enableStatistics] else []) ++
      (if b5 then [permissions.enableSubscription] else []),
    ?_, ?_, ?_, ?_⟩ <;>
    (cases b1 <;> cases b2 <;> cases b4 <;> cases b5 <;> decide)

/-- Toggling the statistics flag inserts exactly the statistics tag. -/
theorem permTags_insert_statistics (b1 b2 b3 b5 : Bool) :
    insertedTag permissions.enableStatistics (permTags b1 b2 b3 true b5)
      (permTags b1 b2 b3 false b5) := by
  refine ⟨(if b1 then [permissions.enableBlog] else []) ++
      (if b2 then [permissions.enableImport] else []) ++
      (if b3 then [permissions.enableSocialLogin] else []),
    (if b5 then [permissions.enableSubscription] else []),
    ?_, ?_, ?_, ?_⟩ <;>
    (cases b1 <;> cases b2 <;> cases b3 <;> cases b5 <;> decide)

/-- Toggling the subscription flag inserts exactly the subscription
tag. -/
theorem permTags_insert_subscription (b1 b2 b3 b4 : Bool) :
    insertedTag permissions.enableSubscription (permTags b1 b2 b3 b4 true)
      (permTags b1 b2 b3 b4 false) := by
  refine ⟨(if b1 then [permissions.enableBlog] else []) ++
      (if b2 then [permissions.enableImport] else []) ++
      (if b3 then [permissions.enableSocialLogin] else []) ++
      (if b4 then [permissions.enableStatistics] else []),
    [], ?_, ?_, ?_, ?_⟩ <;>
    (cases b1 <;> cases b2 <;> cases b3 <;> cases b4 <;> decide)

/-- C10: two-run frame property of the info aggregator.  For each feature
flag, toggling it changes exactly the corresponding permission tag (an
insertion into the permission list) and — for the statistics flag — the
statistics field, and — for the subscription flag — the publishable key
and the subscriptions field; every other field of the two info objects is
identical. -/
theorem infoFlagFrameProperty {V P S : Type} (cfg : Config)
    (env : InfoEnv V P S) :
    (insertedTag permissions.enableBlog
       (InfoService.get { cfg with enableBlog := true } env).globalPermissions
       (InfoService.get { cfg with enableBlog := false } env).globalPermissions ∧
     (InfoService.get { cfg with enableBlog := true } env).stripePublicKey =
       (InfoService.get { cfg with enableBlog := false } env).stripePublicKey ∧
     (InfoService.get { cfg with enableBlog := true } env).platforms =
       (InfoService.get { cfg with enableBlog := false } env).platforms ∧
     (InfoService.get { cfg with enableBlog := true } env).currencies =
       (InfoService.get { cfg with enableBlog := false } env).currencies ∧
     (InfoService.get { cfg with enableBlog := true } env).demoAuthToken =
       (InfoService.get { cfg with enableBlog := false } env).demoAuthToken ∧
     (InfoService.get { cfg with enableBlog := true } env).lastDataGathering =
       (InfoService.get { cfg with enableBlog := false } env).lastDataGathering ∧
     (InfoService.get { cfg with enableBlog := true } env).primaryDataSource =
       (InfoService.get { cfg with enableBlog := false } env).primaryDataSource ∧
     (InfoService.get { cfg with enableBlog := true } env).statistics =
       (InfoService.get { cfg with enableBlog := false } env).statistics ∧
     (InfoService.get { cfg with enableBlog := true } env).subscriptions =
       (InfoService.get { cfg with enableBlog := false } env).subscriptions) ∧
    (insertedTag permissions.enableImport
       (InfoService.get { cfg with enableImport := true } env).globalPermissions
       (InfoService.get { cfg with enableImport := false } env).globalPermissions ∧
     (InfoService.get { cfg with enableImport := true } env).stripePublicKey =
       (InfoService.get { cfg with enableImport := false } env).stripePublicKey ∧
     (InfoService.get { cfg with enableImport := true } env).platforms =
       (InfoService.get { cfg with enableImport := false } env).platforms ∧
     (InfoService.get { cfg with enableImport := true } env).currencies =
       (InfoService.get { cfg with enableImport := false } env).currencies ∧
     (InfoService.get { cfg with enableImport := true } env).demoAuthToken =
       (InfoService.get { cfg with enableImport := false } env).demoAuthToken ∧
     (InfoService.get { cfg with enableImport := true } env).lastDataGathering =
       (InfoService.get { cfg with enableImport := false } env).lastDataGathering ∧
     (InfoService.get { cfg with enableImport := true } env).primaryDataSource =
       (InfoService.get { cfg with enableImport := false } env).primaryDataSource ∧
     (InfoService.get { cfg with enableImport := true } env).statistics =
       (InfoService.get { cfg with enableImport := false } env).statistics ∧
     (InfoService.get { cfg with enableImport := true } env).subscriptions =
       (InfoService.get { cfg with enableImport := false } env).subscriptions) ∧
    (insertedTag permissions.enableSocialLogin
       (InfoService.get { cfg with enableSocialLogin := true } env).globalPermissions
       (InfoService.get { cfg with enableSocialLogin := false } env).globalPermissions ∧
     (InfoService.get { cfg with enableSocialLogin := true } env).stripePublicKey =
       (InfoService.get { cfg with enableSocialLogin := false } env).stripePublicKey ∧
     (InfoService.get { cfg with enableSocialLogin := true } env).platforms =
       (InfoService.get { cfg with enableSocialLogin := false } env).platforms ∧
     (InfoService.get { cfg with enableSocialLogin := true } env).currencies =
       (InfoService.get { cfg with enableSocialLogin := false } env).currencies ∧
     (InfoService.get { cfg with enableSocialLogin := true } env).demoAuthToken =
       (InfoService.get { cfg with enableSocialLogin := false } env).demoAuthToken ∧
     (InfoService.get { cfg with enableSocialLogin := true } env).lastDataGathering =
       (InfoService.get { cfg with enableSocialLogin := false } env).lastDataGathering ∧
     (InfoService.get { cfg with enableSocialLogin := true } env).primaryDataSource =
       (InfoService.get { cfg with enableSocialLogin := false } env).primaryDataSource ∧
     (InfoService.get { cfg with enableSocialLogin := true } env).statistics =
       (InfoService.get { cfg with enableSocialLogin := false } env).statistics ∧
     (InfoService.get { cfg with enableSocialLogin := true } env).subscriptions =
       (InfoService.get { cfg with enableSocialLogin := false } env).subscriptions) ∧
    (insertedTag permissions.enableStatistics
       (InfoService.get { cfg with enableStatistics := true } env).globalPermissions
       (InfoService.get { cfg with enableStatistics := false } env).globalPermissions ∧
     (InfoService.get { cfg with enableStatistics := true } env).stripePublicKey =
       (InfoService.get { cfg with enableStatistics := false } env).stripePublicKey ∧
     (InfoService.get { cfg with enableStatistics := true } env).platforms =
       (InfoService.get { cfg with enableStatistics := false } env).platforms ∧
     (InfoService.get { cfg with enableStatistics := true } env).currencies =
       (InfoService.get { cfg with enableStatistics := false } env).currencies ∧
     (InfoService.get { cfg with enableStatistics := true } env).demoAuthToken =
       (InfoService.get { cfg with enableStatistics := false } env).demoAuthToken ∧
     (InfoService.get { cfg with enableStatistics := true } env).lastDataGathering =
       (InfoService.get { cfg with enableStatistics := false } env).lastDataGathering ∧
     (InfoService.get { cfg with enableStatistics := true } env).primaryDataSource =
       (InfoService.get { cfg with enableStatistics := false } env).primaryDataSource ∧
     (InfoService.get { cfg with enableStatistics := true } env).subscriptions =
       (InfoService.get { cfg with enableStatistics := false } env).subscriptions ∧
     (InfoService.get { cfg with enableStatistics := false } env).statistics =
       none ∧
     (InfoService.get { cfg with enableStatistics := true } env).statistics.isSome =
       true) ∧
    (insertedTag permissions.enableSubscription
       (InfoService.get { cfg with enableSubscription := true } env).globalPermissions
       (InfoService.get { cfg with enableSubscription := false } env).globalPermissions ∧
     (InfoService.get { cfg with enableSubscription := true } env).platforms =
       (InfoService.get { cfg with enableSubscription := false } env).platforms ∧
     (InfoService.get { cfg with enableSubscription := true } env).currencies =
       (InfoService.get { cfg with enableSubscription := false } env).currencies ∧
     (InfoService.get { cfg with enableSubscription := true } env).demoAuthToken =
       (InfoService.get { cfg with enableSubscription := false } env).demoAuthToken ∧
     (InfoService.get { cfg with enableSubscription := true } env).lastDataGathering =
       (InfoService.get { cfg with enableSubscription := false } env).lastDataGathering ∧
     (InfoService.get { cfg with enableSubscription := true } env).primaryDataSource =
       (InfoService.get { cfg with enableSubscription := false } env).primaryDataSource ∧
     (InfoService.get { cfg with enableSubscription := true } env).statistics =
       (InfoService.get { cfg with enableSubscription := false } env).statistics ∧
     (InfoService.get { cfg with enableSubscription := false } env).stripePublicKey =
       none ∧
     (InfoService.get { cfg with enableSubscription := true } env).stripePublicKey =
       some cfg.stripePublicKey ∧
     (InfoService.get { cfg with enableSubscription := false } env).subscriptions =
       none ∧
     (InfoService.get { cfg with enableSubscription := true } env).subscriptions.isSome =
       true) :=
  ⟨⟨permTags_insert_blog cfg.enableImport cfg.enableSocialLogin
      cfg.enableStatistics cfg.enableSubscription,
    rfl, rfl, rfl, rfl, rfl, rfl, rfl, rfl⟩,
   ⟨permTags_insert_import cfg.enableBlog cfg.enableSocialLogin
      cfg.enableStatistics cfg.enableSubscription,
    rfl, rfl, rfl, rfl, rfl, rfl, rfl, rfl⟩,
   ⟨permTags_insert_socialLogin cfg.enableBlog cfg.enableImport
      cfg.enableStatistics cfg.enableSubscription,
    rfl, rfl, rfl, rfl, rfl, rfl, rfl, rfl⟩,
   ⟨permTags_insert_statistics cfg.enableBlog cfg.enableImport
      cfg.enableSocialLogin cfg.enableSubscription,
    rfl, rfl, rfl, rfl, rfl, rfl, rfl, rfl,
    getStatistics_on_isSome env.parseStats env.stringifyStats
      env.statisticsCache env.statsSources⟩,
   ⟨permTags_insert_subscription cfg.enableBlog cfg.enableImport
      cfg.enableSocialLogin cfg.enableStatistics,
    rfl, rfl, rfl, rfl, rfl, rfl, rfl, rfl, rfl,
    getSubscriptions_on_isSome env.parseSubscription
      env.stripeConfigProperty⟩⟩

end Ghostfolio
